import Mathlib

/-!
Shallow embedding of src/native/shared/Database.cpp (WatermelonDB native
database session).  The Session owns an engine connection, a statement
cache, a record-existence cache and a destroyed flag; public operations
are destroy, isCached, markAsCached, removeFromCache, unsafeResetDatabase
and migrate.  External engine behaviour (which SQL batches fail, whether a
version write fails, whether a low-level config toggle fails, whether a
statement finalize reports an error) is abstracted into an oracle so the
theorems quantify over all engine behaviours.  Each public operation
returns its outcome, the post state, and a trace of engine-handle events.
-/

namespace Watermelon

/-- Error values raised by the native layer: SQL execution failures
(carrying the failing batch text, as sqlite_exception does) and JS errors
thrown for low-level configuration failures (jsi JSError). -/
inductive Err where
  | sqlError (sql : String)
  | jsError (msg : String)
  deriving DecidableEq

/-- Outcome of one public operation: normal return, a thrown C++ exception
(catchable by callers), or a fatal assert abort (not an exception: nothing
catches it and no further code of the call runs). -/
inductive Outcome where
  | ok
  | thrown (e : Err)
  | aborted (msg : String)
  deriving DecidableEq

/-- Engine-handle events emitted by the operations, in program order.
Every constructor is a use of the engine handle (db_) or of a compiled
statement belonging to it. -/
inductive Ev where
  | beginTxn
  | commitTxn
  | rollbackTxn
  | execBatch (sql : String)
  | setVersion (v : Int)
  | dbConfigReset (enabled : Bool)
  | finalizeStmt (stmt : Nat) (failed : Bool)
  | closeHandle
  deriving DecidableEq

/-- Logical persistent database state: the user_version pragma value and an
abstract log of SQL batches whose effects have been applied. -/
structure DbData where
  userVersion : Int
  contents : List String
  deriving DecidableEq

/-- Oracle describing the external storage engine's responses: which SQL
batches fail, which schema-version writes fail, which reset-mode config
toggles fail, and which statement finalizations report errors. -/
structure Engine where
  sqlFails : String → Bool
  setVersionFails : Int → Bool
  resetConfigFails : Bool → Bool
  finalizeFails : Nat → Bool

/-- The engine connection (SqliteDb): committed data, the working copy of
an open transaction if any, the reset-database config flag, and whether
the handle has been closed. -/
structure EngineConn where
  committed : DbData
  txn : Option DbData
  resetMode : Bool
  closed : Bool
  deriving DecidableEq

/-- The Session state of Database.cpp: the owned engine connection, the
destroyed flag, the compiled-statement cache (cache key and statement
handle) and the record-existence cache. -/
structure Database where
  conn : EngineConn
  isDestroyed : Bool
  cachedStatements : List (String × Nat)
  cachedRecords : List String
  deriving DecidableEq

/-- Modelled from the spec: applying one SQL batch to the logical data.
A vacuum rebuilds the storage file but preserves logical contents; any
other batch's effect is recorded by appending it to the log. -/
def DbData.apply (d : DbData) (sql : String) : DbData :=
  if sql == "vacuum" then d else { d with contents := d.contents ++ [sql] }

/-- The data currently visible on the connection: the open transaction's
working copy if a transaction is open, else the committed data. -/
def EngineConn.cur (c : EngineConn) : DbData :=
  c.txn.getD c.committed

/-- Successful effect of one batch on the connection: it lands on the
transaction copy if a transaction is open, else on the committed data. -/
def EngineConn.execOk (c : EngineConn) (sql : String) : EngineConn :=
  match c.txn with
  | some d => { c with txn := some (d.apply sql) }
  | none => { c with committed := c.committed.apply sql }

/-- Modelled from the spec: executeMultiple (Database.h, not under src/)
runs a batch on the engine; it fails exactly when the oracle says so. -/
def EngineConn.execMulti (c : EngineConn) (e : Engine) (sql : String) :
    Except Err EngineConn :=
  if e.sqlFails sql then .error (.sqlError sql) else .ok (c.execOk sql)

/-- Modelled from the spec: getSchemaVersion reads the user_version pragma
through the connection (and so sees the open transaction's view). -/
def EngineConn.getUserVersion (c : EngineConn) : Int :=
  c.cur.userVersion

/-- The pragma statement text used to write the schema version. -/
def userVersionSql (v : Int) : String :=
  "pragma user_version = " ++ toString v

/-- Successful effect of a schema-version write on the connection. -/
def EngineConn.setVerOk (c : EngineConn) (v : Int) : EngineConn :=
  match c.txn with
  | some d => { c with txn := some { d with userVersion := v } }
  | none => { c with committed := { c.committed with userVersion := v } }

/-- Modelled from the spec: setSchemaVersion writes the user_version
pragma; it fails exactly when the oracle says so. -/
def EngineConn.setUserVersion (c : EngineConn) (e : Engine) (v : Int) :
    Except Err EngineConn :=
  if e.setVersionFails v then .error (.sqlError (userVersionSql v))
  else .ok (c.setVerOk v)

/-- Modelled from the spec: beginTransaction opens a transaction whose
working copy starts from the committed data. -/
def EngineConn.beginTransaction (c : EngineConn) : EngineConn :=
  { c with txn := some c.committed }

/-- Modelled from the spec: commit installs the transaction's working copy
as the committed data and closes the transaction. -/
def EngineConn.commit (c : EngineConn) : EngineConn :=
  match c.txn with
  | some d => { c with committed := d, txn := none }
  | none => c

/-- Modelled from the spec: rollback discards the transaction's working
copy; the committed data is untouched. -/
def EngineConn.rollback (c : EngineConn) : EngineConn :=
  { c with txn := none }

/-- Database::destroy.  Under the mutex guard: if already destroyed return
immediately; otherwise set the flag, finalize every cached statement
(return codes ignored, so a finalize error never stops the loop), clear
the statement cache and close the engine handle (db_->destroy()). -/
def Database.destroy (db : Database) (e : Engine) :
    Outcome × Database × List Ev :=
  if db.isDestroyed then (.ok, db, [])
  else
    (.ok,
     { db with isDestroyed := true, cachedStatements := [],
               conn := { db.conn with closed := true } },
     (db.cachedStatements.map fun s => Ev.finalizeStmt s.2 (e.finalizeFails s.2))
       ++ [Ev.closeHandle])

/-- Database::isCached: membership test on the record-existence cache
(find against std set). -/
def Database.isCached (db : Database) (key : String) : Bool :=
  db.cachedRecords.contains key

/-- Database::markAsCached: std set insert (no effect when present). -/
def Database.markAsCached (db : Database) (key : String) : Database :=
  if db.cachedRecords.contains key then db
  else { db with cachedRecords := db.cachedRecords ++ [key] }

/-- Database::removeFromCache: std set erase (no effect when absent). -/
def Database.removeFromCache (db : Database) (key : String) : Database :=
  { db with cachedRecords := db.cachedRecords.filter (fun k => !(k == key)) }

/-- Database::unsafeResetDatabase.  Enable the reset-database config mode
(throwing a JSError on failure), vacuum outside any transaction, disable
the mode, then begin a transaction; inside it clear the record cache,
execute the schema batch, write the schema version and commit; on a
failure inside the transaction roll back and rethrow the original error.
The record-cache clearing is an in-memory assignment, not undone by the
engine rollback. -/
def Database.unsafeResetDatabase (db : Database) (e : Engine)
    (schema : String) (schemaVersion : Int) : Outcome × Database × List Ev :=
  if e.resetConfigFails true then
    (.thrown (.jsError "Failed to enable reset database mode"), db,
     [.dbConfigReset true])
  else
    let c1 : EngineConn := { db.conn with resetMode := true }
    if e.sqlFails "vacuum" then
      (.thrown (.sqlError "vacuum"), { db with conn := c1 },
       [.dbConfigReset true, .execBatch "vacuum"])
    else
      let c2 := c1.execOk "vacuum"
      if e.resetConfigFails false then
        (.thrown (.jsError "Failed to disable reset database mode"),
         { db with conn := c2 },
         [.dbConfigReset true, .execBatch "vacuum", .dbConfigReset false])
      else
        let c3 := ({ c2 with resetMode := false } : EngineConn).beginTransaction
        if e.sqlFails schema then
          (.thrown (.sqlError schema),
           { db with conn := c3.rollback, cachedRecords := [] },
           [.dbConfigReset true, .execBatch "vacuum", .dbConfigReset false,
            .beginTxn, .execBatch schema, .rollbackTxn])
        else
          let c4 := c3.execOk schema
          if e.setVersionFails schemaVersion then
            (.thrown (.sqlError (userVersionSql schemaVersion)),
             { db with conn := c4.rollback, cachedRecords := [] },
             [.dbConfigReset true, .execBatch "vacuum", .dbConfigReset false,
              .beginTxn, .execBatch schema, .setVersion schemaVersion,
              .rollbackTxn])
          else
            (.ok,
             { db with conn := (c4.setVerOk schemaVersion).commit,
                       cachedRecords := [] },
             [.dbConfigReset true, .execBatch "vacuum", .dbConfigReset false,
              .beginTxn, .execBatch schema, .setVersion schemaVersion,
              .commitTxn])

/-- Database::migrate.  Begin a transaction; assert that the current
schema version equals fromVersion ("Incompatible migration set") — a C
assert, so it is checked only when ndebug is false, and on failure the
process aborts (no rollback runs, the catch clause never sees it); then
execute the migration batch, write toVersion and commit, rolling back and
rethrowing on a thrown failure. -/
def Database.migrate (db : Database) (e : Engine) (ndebug : Bool)
    (migrationSql : String) (fromVersion toVersion : Int) :
    Outcome × Database × List Ev :=
  let c1 := db.conn.beginTransaction
  if !ndebug && !(c1.getUserVersion == fromVersion) then
    (.aborted "Incompatible migration set", { db with conn := c1 }, [.beginTxn])
  else if e.sqlFails migrationSql then
    (.thrown (.sqlError migrationSql), { db with conn := c1.rollback },
     [.beginTxn, .execBatch migrationSql, .rollbackTxn])
  else
    let c2 := c1.execOk migrationSql
    if e.setVersionFails toVersion then
      (.thrown (.sqlError (userVersionSql toVersion)),
       { db with conn := c2.rollback },
       [.beginTxn, .execBatch migrationSql, .setVersion toVersion,
        .rollbackTxn])
    else
      (.ok, { db with conn := (c2.setVerOk toVersion).commit },
       [.beginTxn, .execBatch migrationSql, .setVersion toVersion,
        .commitTxn])

/-- The single-quote character, written by code point to keep the source
free of quote characters. -/
def sqChar : Char := Char.ofNat 39

/-- The semicolon character, written by code point. -/
def semiChar : Char := Char.ofNat 59

/-- A one-character string holding a single quote. -/
def sq : String := String.mk [sqChar]

/-- The key pragma assembled by the constructor for a non-empty password:
the password is spliced verbatim between single quotes. -/
def keyPragma (password : String) : String :=
  "PRAGMA key = " ++ sq ++ password ++ sq ++ ";"

/-- The five fixed SQLCipher configuration statements appended after the
key pragma. -/
def cipherTail : List String :=
  ["PRAGMA cipher_page_size = 4096;",
   "PRAGMA kdf_iter = 64000;",
   "PRAGMA cipher_memory_security = ON;",
   "PRAGMA cipher_default_use_hmac = ON;",
   "PRAGMA cipher_compatibility = 4;"]

/-- The six encryption-configuration statements the constructor emits for
a non-empty password when SQLITE_HAS_CODEC is defined. -/
def encryptionPragmas (password : String) : List String :=
  keyPragma password :: cipherTail

/-- The non-encryption statements of the constructor's init script, in
source order: the Android temp-store pragma, journal mode WAL, busy
timeout 5000, the Android synchronous pragma, and the optional exclusive
locking pragma. -/
def tuningPragmas (android usesExclusiveLocking : Bool) : List String :=
  (if android then ["pragma temp_store = memory;"] else [])
    ++ ["pragma journal_mode = WAL;", "pragma busy_timeout = 5000;"]
    ++ (if android then ["pragma synchronous = FULL;"] else [])
    ++ (if usesExclusiveLocking then ["pragma locking_mode = EXCLUSIVE;"] else [])

/-- The statements appended to initSql by the Database constructor, in
order: the encryption block (when codec support is compiled in and the
password is non-empty) followed by the tuning pragmas. -/
def initStatements (hasCodec android : Bool) (password : String)
    (usesExclusiveLocking : Bool) : List String :=
  (if hasCodec && !(password == "") then encryptionPragmas password else [])
    ++ tuningPragmas android usesExclusiveLocking

/-- Concatenation of a list of strings, mirroring the constructor's
repeated string appends. -/
def sconcat : List String → String
  | [] => ""
  | s :: l => s ++ sconcat l

/-- The assembled initSql string executed as one batch at the end of the
Database constructor. -/
def initSql (hasCodec android : Bool) (password : String)
    (usesExclusiveLocking : Bool) : String :=
  sconcat (initStatements hasCodec android password usesExclusiveLocking)

/-- Split an SQL script into statements at semicolons, honouring
single-quoted string literals (a semicolon inside quotes does not end a
statement); the terminating semicolons are dropped and trailing unfinished
text forms a final statement. -/
def splitSqlAux : List Char → List Char → Bool → List String
  | [], acc, _ => if acc.isEmpty then [] else [String.mk acc.reverse]
  | c :: cs, acc, inStr =>
    if inStr then
      if c = sqChar then splitSqlAux cs (c :: acc) false
      else splitSqlAux cs (c :: acc) true
    else if c = sqChar then splitSqlAux cs (c :: acc) true
    else if c = semiChar then String.mk acc.reverse :: splitSqlAux cs [] false
    else splitSqlAux cs (c :: acc) false

/-- Statement structure of an SQL script. -/
def splitStatements (s : String) : List String :=
  splitSqlAux s.data [] false

/-- Drop a trailing semicolon from a statement, to compare assembled
statements (which carry their terminator) with parsed ones (which do
not). -/
def stripSemi (s : String) : String :=
  if s.data.getLast? = some semiChar then String.mk s.data.dropLast else s

/-- A record-cache mutation: markAsCached or removeFromCache. -/
inductive CacheOp where
  | mark
  | remove
  deriving DecidableEq

/-- Apply one record-cache mutation for a key. -/
def Database.applyCacheOp (db : Database) (key : String) : CacheOp → Database
  | .mark => db.markAsCached key
  | .remove => db.removeFromCache key

/-- Apply a sequence of record-cache mutations for a key, oldest first. -/
def Database.applyCacheOps (db : Database) (key : String) : List CacheOp → Database
  | [] => db
  | op :: ops => (db.applyCacheOp key op).applyCacheOps key ops

/-- Iterate destroy: apply destroy n times, accumulating the traces. -/
def Database.destroyN (db : Database) (e : Engine) : Nat → Database × List Ev
  | 0 => (db, [])
  | n + 1 =>
    let r := db.destroy e
    let rest := r.2.1.destroyN e n
    (rest.1, r.2.2 ++ rest.2)

/-- The public operations of the Session. -/
inductive PublicOp where
  | destroy
  | isCached
  | markAsCached
  | removeFromCache
  | unsafeResetDatabase
  | migrate
  deriving DecidableEq

/-- Whether the body of each public operation acquires the Session mutex
(a std lock_guard on mutex_), read off Database.cpp: destroy, reset and
migrate do; the three cache operations have no lock_guard. -/
def acquiresGuard : PublicOp → Bool
  | .destroy => true
  | .isCached => false
  | .markAsCached => false
  | .removeFromCache => false
  | .unsafeResetDatabase => true
  | .migrate => true

/-- An engine oracle on which every operation succeeds. -/
def engineOk : Engine :=
  ⟨fun _ => false, fun _ => false, fun _ => false, fun _ => false⟩

/-- An engine oracle on which exactly the SQL batch "bad" fails. -/
def engineFailBad : Engine :=
  ⟨fun s => s == "bad", fun _ => false, fun _ => false, fun _ => false⟩

/-- A live session at schema version 5, with contents log ["t"], one
cached compiled statement and one cached record key. -/
def dbSample : Database :=
  ⟨⟨⟨5, ["t"]⟩, none, false, false⟩, false, [("q", 1)], ["k"]⟩

/-- Destroy of an already-destroyed session returns immediately: no state
change, no engine events, no error. -/
theorem destroy_of_destroyed (db : Database) (e : Engine) (h : db.isDestroyed = true) :
    db.destroy e = (Outcome.ok, db, []) := by
  simp [Database.destroy, h]

/-- After any destroy call the destroyed flag is set. -/
theorem destroy_result_destroyed (db : Database) (e : Engine) :
    (db.destroy e).2.1.isDestroyed = true := by
  by_cases h : db.isDestroyed <;> simp [Database.destroy, h]

/-- Iterated destroy on an already-destroyed session does nothing. -/
theorem destroyN_of_destroyed (db : Database) (e : Engine) (h : db.isDestroyed = true) :
    ∀ n, db.destroyN e n = (db, []) := by
  intro n
  induction n with
  | zero => rfl
  | succ n ih => simp [Database.destroyN, destroy_of_destroyed db e h, ih]

/-- A freshly marked key is cached. -/
theorem isCached_markAsCached_self (db : Database) (key : String) :
    (db.markAsCached key).isCached key = true := by
  by_cases h : db.cachedRecords.contains key <;>
    simp_all [Database.markAsCached, Database.isCached]

/-- A freshly removed key is not cached. -/
theorem isCached_removeFromCache_self (db : Database) (key : String) :
    (db.removeFromCache key).isCached key = false := by
  simp [Database.removeFromCache, Database.isCached]

/-- markAsCached is an idempotent insert. -/
theorem markAsCached_idem (db : Database) (key : String) :
    (db.markAsCached key).markAsCached key = db.markAsCached key := by
  by_cases h : db.cachedRecords.contains key <;>
    simp_all [Database.markAsCached]

/-- removeFromCache of an absent key is a no-op. -/
theorem removeFromCache_absent (db : Database) (key : String)
    (h : db.isCached key = false) : db.removeFromCache key = db := by
  simp only [Database.isCached] at h
  have hmem : key ∉ db.cachedRecords := by simpa using h
  have hall : db.cachedRecords.filter (fun k => !(k == key)) = db.cachedRecords := by
    apply List.filter_eq_self.mpr
    intro a ha
    simp only [Bool.not_eq_true', beq_eq_false_iff_ne]
    rintro rfl
    exact hmem ha
  simp [Database.removeFromCache, hall]

/-- Applying a cache-op sequence ending in one more op equals applying the
sequence and then the op. -/
theorem applyCacheOps_append (db : Database) (key : String) (ops : List CacheOp)
    (op : CacheOp) :
    db.applyCacheOps key (ops ++ [op]) = (db.applyCacheOps key ops).applyCacheOp key op := by
  induction ops generalizing db with
  | nil => rfl
  | cons o os ih => simp [Database.applyCacheOps, ih]

/-- Concatenation distributes over list append. -/
theorem sconcat_append (a b : List String) :
    sconcat (a ++ b) = sconcat a ++ sconcat b := by
  induction a with
  | nil => simp [sconcat, String.empty_append]
  | cons s l ih => simp [sconcat, ih, String.append_assoc]

/-- Claim C1 (amended): in builds with assertions enabled, a migrate call
whose current schema version differs from fromVersion is aborted with the
fatal assertion message "Incompatible migration set"; the migration batch
is never executed (the only engine event is the transaction begin) and the
committed schema version and data are unchanged. -/
theorem migrate_version_mismatch_aborts_in_debug (db : Database) (e : Engine)
    (sql : String) (fromV toV : Int)
    (hv : db.conn.committed.userVersion ≠ fromV) :
    (db.migrate e false sql fromV toV).1 = Outcome.aborted "Incompatible migration set" ∧
    Ev.execBatch sql ∉ (db.migrate e false sql fromV toV).2.2 ∧
    (db.migrate e false sql fromV toV).2.1.conn.committed = db.conn.committed ∧
    (db.migrate e false sql fromV toV).2.2 = [Ev.beginTxn] := by
  simp [Database.migrate, EngineConn.beginTransaction, EngineConn.getUserVersion,
    EngineConn.cur, hv]

/-- Witness for claim C1 at a concrete mismatched call. -/
theorem migrate_version_mismatch_aborts_in_debug_witness :
    (dbSample.migrate engineOk false "m" 3 4).1 = Outcome.aborted "Incompatible migration set" ∧
    Ev.execBatch "m" ∉ (dbSample.migrate engineOk false "m" 3 4).2.2 ∧
    (dbSample.migrate engineOk false "m" 3 4).2.1.conn.committed = dbSample.conn.committed ∧
    (dbSample.migrate engineOk false "m" 3 4).2.2 = [Ev.beginTxn] :=
  migrate_version_mismatch_aborts_in_debug dbSample engineOk "m" 3 4 (by decide)

/-- Counterexample to claim C1 as stated: the version check is a C assert,
so in an NDEBUG (release) build a migrate call at version 5 with
fromVersion 3 does not fail: it returns ok, executes the migration batch,
and changes the schema version and data. -/
theorem migrate_release_build_skips_version_check :
    dbSample.conn.committed.userVersion ≠ 3 ∧
    (dbSample.migrate engineOk true "m" 3 4).1 = Outcome.ok ∧
    Ev.execBatch "m" ∈ (dbSample.migrate engineOk true "m" 3 4).2.2 ∧
    (dbSample.migrate engineOk true "m" 3 4).2.1.conn.committed = ⟨4, ["t", "m"]⟩ := by
  decide

/-- Claim C2 (amended): when the SQL batch or the schema-version write
fails after the transaction has begun, both migrate and resetDatabase roll
back and propagate the originating error, restoring the committed schema
version and data; migrate leaves the record-existence cache untouched, but
resetDatabase leaves it cleared — the in-memory clearing performed at the
start of the reset transaction is not restored by the rollback. -/
theorem transaction_failure_rolls_back (db : Database) (e : Engine) (nd : Bool)
    (sql schema : String) (fromV toV v : Int)
    (hver : db.conn.committed.userVersion = fromV)
    (hTxn : db.conn.txn = none)
    (hcfg1 : e.resetConfigFails true = false)
    (hvac : e.sqlFails "vacuum" = false)
    (hcfg2 : e.resetConfigFails false = false) :
    ((e.sqlFails sql = true ∨ (e.sqlFails sql = false ∧ e.setVersionFails toV = true)) →
      ((db.migrate e nd sql fromV toV).1 = Outcome.thrown (Err.sqlError sql) ∨
        (db.migrate e nd sql fromV toV).1 = Outcome.thrown (Err.sqlError (userVersionSql toV))) ∧
      (db.migrate e nd sql fromV toV).2.1.conn.committed = db.conn.committed ∧
      (db.migrate e nd sql fromV toV).2.1.conn.txn = none ∧
      (db.migrate e nd sql fromV toV).2.1.cachedRecords = db.cachedRecords ∧
      Ev.rollbackTxn ∈ (db.migrate e nd sql fromV toV).2.2) ∧
    ((e.sqlFails schema = true ∨ (e.sqlFails schema = false ∧ e.setVersionFails v = true)) →
      ((db.unsafeResetDatabase e schema v).1 = Outcome.thrown (Err.sqlError schema) ∨
        (db.unsafeResetDatabase e schema v).1 = Outcome.thrown (Err.sqlError (userVersionSql v))) ∧
      (db.unsafeResetDatabase e schema v).2.1.conn.committed = db.conn.committed ∧
      (db.unsafeResetDatabase e schema v).2.1.conn.txn = none ∧
      Ev.rollbackTxn ∈ (db.unsafeResetDatabase e schema v).2.2 ∧
      (db.unsafeResetDatabase e schema v).2.1.cachedRecords = []) := by
  constructor
  · rintro (hfail | ⟨hnofail, hverfail⟩)
    · simp [Database.migrate, EngineConn.beginTransaction, EngineConn.getUserVersion,
        EngineConn.cur, EngineConn.rollback, hver, hfail]
    · simp [Database.migrate, EngineConn.beginTransaction, EngineConn.getUserVersion,
        EngineConn.cur, EngineConn.rollback, EngineConn.execOk, hver, hnofail, hverfail]
  · rintro (hfail | ⟨hnofail, hverfail⟩)
    · simp [Database.unsafeResetDatabase, EngineConn.beginTransaction, EngineConn.rollback,
        EngineConn.execOk, DbData.apply, hcfg1, hvac, hcfg2, hfail, hTxn]
    · simp [Database.unsafeResetDatabase, EngineConn.beginTransaction, EngineConn.rollback,
        EngineConn.execOk, DbData.apply, hcfg1, hvac, hcfg2, hnofail, hverfail, hTxn]

/-- Witness for claim C2 at a concrete failing batch. -/
theorem transaction_failure_rolls_back_witness :
    (((dbSample.migrate engineFailBad false "bad" 5 6).1 = Outcome.thrown (Err.sqlError "bad") ∨
      (dbSample.migrate engineFailBad false "bad" 5 6).1 = Outcome.thrown (Err.sqlError (userVersionSql 6))) ∧
     (dbSample.migrate engineFailBad false "bad" 5 6).2.1.conn.committed = dbSample.conn.committed ∧
     (dbSample.migrate engineFailBad false "bad" 5 6).2.1.conn.txn = none ∧
     (dbSample.migrate engineFailBad false "bad" 5 6).2.1.cachedRecords = dbSample.cachedRecords ∧
     Ev.rollbackTxn ∈ (dbSample.migrate engineFailBad false "bad" 5 6).2.2) ∧
    (((dbSample.unsafeResetDatabase engineFailBad "bad" 9).1 = Outcome.thrown (Err.sqlError "bad") ∨
      (dbSample.unsafeResetDatabase engineFailBad "bad" 9).1 = Outcome.thrown (Err.sqlError (userVersionSql 9))) ∧
     (dbSample.unsafeResetDatabase engineFailBad "bad" 9).2.1.conn.committed = dbSample.conn.committed ∧
     (dbSample.unsafeResetDatabase engineFailBad "bad" 9).2.1.conn.txn = none ∧
     Ev.rollbackTxn ∈ (dbSample.unsafeResetDatabase engineFailBad "bad" 9).2.2 ∧
     (dbSample.unsafeResetDatabase engineFailBad "bad" 9).2.1.cachedRecords = []) := by
  have h := transaction_failure_rolls_back dbSample engineFailBad false "bad" "bad" 5 6 9
    (by decide) (by decide) (by decide) (by decide) (by decide)
  exact ⟨h.1 (Or.inl (by decide)), h.2 (Or.inl (by decide))⟩

/-- Counterexample to claim C2 as stated: a resetDatabase call on a
session whose record cache holds "k" fails mid-batch; the error is
propagated and the committed data restored, but afterwards the
record-existence cache is empty, not restored to its pre-operation
value ["k"]. -/
theorem reset_rollback_leaves_record_cache_cleared :
    (dbSample.unsafeResetDatabase engineFailBad "bad" 9).1 = Outcome.thrown (Err.sqlError "bad") ∧
    (dbSample.unsafeResetDatabase engineFailBad "bad" 9).2.1.cachedRecords = [] ∧
    dbSample.cachedRecords = ["k"] ∧
    (dbSample.unsafeResetDatabase engineFailBad "bad" 9).2.1.conn.committed = dbSample.conn.committed := by
  decide

/-- Claim C3 (amended): the mutual-exclusion guard is acquired by exactly
destroy, unsafeResetDatabase and migrate; the three cache operations
isCached, markAsCached and removeFromCache do not acquire it, so they are
not serialized against destroy, reset or migrate. -/
theorem guard_acquired_exactly_by_destroy_reset_migrate (op : PublicOp) :
    acquiresGuard op = true ↔
      (op = PublicOp.destroy ∨ op = PublicOp.unsafeResetDatabase ∨ op = PublicOp.migrate) := by
  cases op <;> simp [acquiresGuard]

/-- Counterexample to claim C3 as stated: the public cache operation
isCached does not acquire the Session guard (its body has no lock_guard). -/
theorem isCached_does_not_acquire_guard :
    acquiresGuard PublicOp.isCached = false := rfl

/-- Claim C4 (amended): after destroy has completed, destroy itself and
the cache operations touch no engine state (destroy returns immediately
and the cache operations leave the connection untouched), but migrate and
unsafeResetDatabase do not consult the destroyed flag: migrate still
begins a transaction and reset still toggles the reset-database config on
the engine handle. -/
theorem destroyed_flag_not_checked_by_migrate_reset (db : Database) (e : Engine)
    (key sql schema : String) (nd : Bool) (fromV toV v : Int)
    (hd : db.isDestroyed = true) :
    db.destroy e = (Outcome.ok, db, []) ∧
    (db.markAsCached key).conn = db.conn ∧
    (db.removeFromCache key).conn = db.conn ∧
    (db.migrate e nd sql fromV toV).2.2.head? = some Ev.beginTxn ∧
    (db.unsafeResetDatabase e schema v).2.2.head? = some (Ev.dbConfigReset true) := by
  refine ⟨destroy_of_destroyed db e hd, ?_, ?_, ?_, ?_⟩
  · simp only [Database.markAsCached]
    split <;> rfl
  · rfl
  · simp only [Database.migrate]
    repeat' split
    all_goals rfl
  · simp only [Database.unsafeResetDatabase]
    repeat' split
    all_goals rfl

/-- Witness for claim C4 on a concretely destroyed session. -/
theorem destroyed_flag_not_checked_by_migrate_reset_witness :
    (dbSample.destroy engineOk).2.1.destroy engineOk = (Outcome.ok, (dbSample.destroy engineOk).2.1, []) ∧
    ((dbSample.destroy engineOk).2.1.markAsCached "a").conn = (dbSample.destroy engineOk).2.1.conn ∧
    ((dbSample.destroy engineOk).2.1.removeFromCache "a").conn = (dbSample.destroy engineOk).2.1.conn ∧
    ((dbSample.destroy engineOk).2.1.migrate engineOk false "m" 5 6).2.2.head? = some Ev.beginTxn ∧
    ((dbSample.destroy engineOk).2.1.unsafeResetDatabase engineOk "s" 7).2.2.head? = some (Ev.dbConfigReset true) :=
  destroyed_flag_not_checked_by_migrate_reset (dbSample.destroy engineOk).2.1 engineOk
    "a" "m" "s" false 5 6 7 (by decide)

/-- Counterexample to claim C4 as stated: on a session on which destroy
has completed, a subsequent migrate call still touches the engine handle
(it begins a transaction), as does unsafeResetDatabase (it toggles the
reset config mode). -/
theorem migrate_after_destroy_touches_engine :
    (dbSample.destroy engineOk).2.1.isDestroyed = true ∧
    Ev.beginTxn ∈ ((dbSample.destroy engineOk).2.1.migrate engineOk false "m" 5 6).2.2 ∧
    Ev.dbConfigReset true ∈ ((dbSample.destroy engineOk).2.1.unsafeResetDatabase engineOk "s" 7).2.2 := by
  decide

/-- Claim C5: for every N greater than or equal to 1 on a live session,
calling destroy N times equals the first call alone — the full teardown
trace (one finalize per cached statement followed by one handle close) is
emitted exactly once, every call returns ok (destroy never fails), every
call after the first is an immediate no-op, and destroy runs under the
Session guard. -/
theorem destroy_idempotent_single_teardown (db : Database) (e : Engine) (n : Nat)
    (hn : 1 ≤ n) (hd : db.isDestroyed = false) :
    db.destroyN e n = ((db.destroy e).2.1, (db.destroy e).2.2) ∧
    (db.destroy e).1 = Outcome.ok ∧
    (db.destroy e).2.1.destroy e = (Outcome.ok, (db.destroy e).2.1, []) ∧
    (db.destroyN e n).2 =
      (db.cachedStatements.map fun s => Ev.finalizeStmt s.2 (e.finalizeFails s.2))
        ++ [Ev.closeHandle] ∧
    acquiresGuard PublicOp.destroy = true := by
  obtain ⟨m, rfl⟩ : ∃ m, n = m + 1 := ⟨n - 1, by omega⟩
  have h1 : (db.destroy e).2.1.isDestroyed = true := destroy_result_destroyed db e
  have h2 : db.destroyN e (m + 1) = ((db.destroy e).2.1, (db.destroy e).2.2) := by
    simp [Database.destroyN, destroyN_of_destroyed _ e h1]
  refine ⟨h2, ?_, destroy_of_destroyed _ e h1, ?_, rfl⟩
  · simp [Database.destroy, hd]
  · rw [h2]
    simp [Database.destroy, hd]

/-- Witness for claim C5 with three destroy calls on a live session. -/
theorem destroy_idempotent_single_teardown_witness :
    dbSample.destroyN engineOk 3 = ((dbSample.destroy engineOk).2.1, (dbSample.destroy engineOk).2.2) ∧
    (dbSample.destroy engineOk).1 = Outcome.ok ∧
    (dbSample.destroy engineOk).2.1.destroy engineOk = (Outcome.ok, (dbSample.destroy engineOk).2.1, []) ∧
    (dbSample.destroyN engineOk 3).2 =
      (dbSample.cachedStatements.map fun s => Ev.finalizeStmt s.2 (engineOk.finalizeFails s.2))
        ++ [Ev.closeHandle] ∧
    acquiresGuard PublicOp.destroy = true :=
  destroy_idempotent_single_teardown dbSample engineOk 3 (by decide) (by decide)

/-- Claim C6: a successful resetDatabase leaves the committed schema
version equal to the supplied schemaVersion and every key uncached. -/
theorem reset_success_sets_version_and_clears_cache (db : Database) (e : Engine)
    (schema : String) (v : Int)
    (hok : (db.unsafeResetDatabase e schema v).1 = Outcome.ok) :
    (db.unsafeResetDatabase e schema v).2.1.conn.committed.userVersion = v ∧
    ∀ k, (db.unsafeResetDatabase e schema v).2.1.isCached k = false := by
  revert hok
  simp only [Database.unsafeResetDatabase]
  repeat' split
  all_goals intro hok
  all_goals simp at hok
  exact ⟨rfl, fun k => rfl⟩

/-- Witness for claim C6 at a concrete successful reset: the key "k" was
cached before the reset and is not cached after it. -/
theorem reset_success_sets_version_and_clears_cache_witness :
    (dbSample.unsafeResetDatabase engineOk "s" 9).2.1.conn.committed.userVersion = 9 ∧
    (dbSample.unsafeResetDatabase engineOk "s" 9).2.1.isCached "k" = false :=
  ⟨(reset_success_sets_version_and_clears_cache dbSample engineOk "s" 9 (by decide)).1,
   (reset_success_sets_version_and_clears_cache dbSample engineOk "s" 9 (by decide)).2 "k"⟩

/-- Claim C7: with encryption support compiled in and a non-empty
password, the constructor's statement list is exactly the six
encryption-configuration pragmas (key, cipher page size 4096, 64000 KDF
iterations, memory security on, default HMAC on, compatibility mode 4)
followed by all remaining pragmas, so the six precede every other pragma
in the batch. -/
theorem encryption_pragmas_come_first (android usesExclusiveLocking : Bool)
    (p : String) (hp : p ≠ "") :
    initStatements true android p usesExclusiveLocking =
      encryptionPragmas p ++ tuningPragmas android usesExclusiveLocking ∧
    initSql true android p usesExclusiveLocking =
      sconcat (encryptionPragmas p) ++ sconcat (tuningPragmas android usesExclusiveLocking) ∧
    encryptionPragmas p =
      [keyPragma p,
       "PRAGMA cipher_page_size = 4096;",
       "PRAGMA kdf_iter = 64000;",
       "PRAGMA cipher_memory_security = ON;",
       "PRAGMA cipher_default_use_hmac = ON;",
       "PRAGMA cipher_compatibility = 4;"] := by
  have hb : (p == "") = false := beq_eq_false_iff_ne.mpr hp
  refine ⟨?_, ?_, rfl⟩
  · simp [initStatements, hb]
  · simp [initSql, initStatements, hb, sconcat_append]

/-- Witness for claim C7 at a concrete password. -/
theorem encryption_pragmas_come_first_witness :
    initStatements true false "pw" false =
      encryptionPragmas "pw" ++ tuningPragmas false false ∧
    initSql true false "pw" false =
      sconcat (encryptionPragmas "pw") ++ sconcat (tuningPragmas false false) ∧
    encryptionPragmas "pw" =
      [keyPragma "pw",
       "PRAGMA cipher_page_size = 4096;",
       "PRAGMA kdf_iter = 64000;",
       "PRAGMA cipher_memory_security = ON;",
       "PRAGMA cipher_default_use_hmac = ON;",
       "PRAGMA cipher_compatibility = 4;"] :=
  encryption_pragmas_come_first false false "pw" (by decide)

/-- Claim C8: for a sequence of cache mutations on one key, isCached is
true exactly when the most recent mutation was markAsCached; markAsCached
is an idempotent insert; removeFromCache of an absent key is a no-op; and
isCached is a pure membership test on the record cache. -/
theorem record_cache_last_write_wins (db : Database) (key : String) (ops : List CacheOp) :
    (ops ≠ [] →
      ((db.applyCacheOps key ops).isCached key = true ↔
        ops.getLast? = some CacheOp.mark)) ∧
    (db.markAsCached key).markAsCached key = db.markAsCached key ∧
    (db.isCached key = false → db.removeFromCache key = db) ∧
    db.isCached key = db.cachedRecords.contains key := by
  refine ⟨?_, markAsCached_idem db key, removeFromCache_absent db key, rfl⟩
  intro hne
  rcases List.eq_nil_or_concat ops with rfl | ⟨front, last, rfl⟩
  · exact absurd rfl hne
  · rw [List.concat_eq_append, applyCacheOps_append, List.getLast?_concat]
    cases last with
    | mark => simp [Database.applyCacheOp, isCached_markAsCached_self]
    | remove => simp [Database.applyCacheOp, isCached_removeFromCache_self]

/-- Witness for claim C8 at a concrete mutation sequence. -/
theorem record_cache_last_write_wins_witness :
    ((dbSample.applyCacheOps "k" [CacheOp.mark, CacheOp.remove]).isCached "k" = true ↔
      [CacheOp.mark, CacheOp.remove].getLast? = some CacheOp.mark) ∧
    (dbSample.markAsCached "a").markAsCached "a" = dbSample.markAsCached "a" ∧
    dbSample.removeFromCache "z" = dbSample := by
  have h1 := record_cache_last_write_wins dbSample "k" [CacheOp.mark, CacheOp.remove]
  have h2 := record_cache_last_write_wins dbSample "a" []
  have h3 := record_cache_last_write_wins dbSample "z" []
  exact ⟨h1.1 (by decide), h2.2.1, h3.2.2.1 (by decide)⟩

/-- Claim C9: in a teardown-performing destroy, the engine-event trace is
the finalization of every cached statement followed by the handle close:
every statement's finalization (whatever error the engine reports for it
or for the others — the oracle is arbitrary) occurs, and occurs strictly
before the close, which is the last event. -/
theorem destroy_finalizes_all_statements_before_close (db : Database) (e : Engine)
    (hd : db.isDestroyed = false) :
    (db.destroy e).2.2 =
      (db.cachedStatements.map fun s => Ev.finalizeStmt s.2 (e.finalizeFails s.2))
        ++ [Ev.closeHandle] ∧
    (∀ s ∈ db.cachedStatements,
      Ev.finalizeStmt s.2 (e.finalizeFails s.2) ∈ (db.destroy e).2.2.dropLast) ∧
    (db.destroy e).2.2.getLast? = some Ev.closeHandle := by
  have h : (db.destroy e).2.2 =
      (db.cachedStatements.map fun s => Ev.finalizeStmt s.2 (e.finalizeFails s.2))
        ++ [Ev.closeHandle] := by
    simp [Database.destroy, hd]
  refine ⟨h, ?_, ?_⟩
  · intro s hs
    rw [h, List.dropLast_concat]
    exact List.mem_map_of_mem _ hs
  · rw [h, List.getLast?_concat]

/-- Witness for claim C9 on a live session holding statement handle 1. -/
theorem destroy_finalizes_all_statements_before_close_witness :
    (dbSample.destroy engineOk).2.2 =
      (dbSample.cachedStatements.map fun s => Ev.finalizeStmt s.2 (engineOk.finalizeFails s.2))
        ++ [Ev.closeHandle] ∧
    Ev.finalizeStmt 1 (engineOk.finalizeFails 1) ∈ (dbSample.destroy engineOk).2.2.dropLast ∧
    (dbSample.destroy engineOk).2.2.getLast? = some Ev.closeHandle := by
  have h := destroy_finalizes_all_statements_before_close dbSample engineOk (by decide)
  exact ⟨h.1, h.2.1 ("q", 1) (by decide), h.2.2⟩

set_option maxRecDepth 10000 in
/-- Claim C10: the constructor splices a non-empty password verbatim into
the key pragma, so the init script literally starts with the key directive
built around the raw password; and for the concrete password consisting of
one single-quote character, parsing the script into statements (honouring
quoting) does not yield the key directive as its first statement — the
statement structure differs from a single key directive followed by the
fixed cipher pragmas. -/
theorem password_key_pragma_verbatim (p : String) (hp : p ≠ "") :
    (∀ a x : Bool, initSql true a p x =
      keyPragma p ++ sconcat (cipherTail ++ tuningPragmas a x)) ∧
    sq ≠ "" ∧
    (splitStatements (initSql true false sq false)).head? ≠
      some (stripSemi (keyPragma sq)) := by
  have hb : (p == "") = false := beq_eq_false_iff_ne.mpr hp
  refine ⟨?_, by decide, by decide⟩
  intro a x
  simp [initSql, initStatements, hb, encryptionPragmas, sconcat, sconcat_append,
    String.append_assoc]

/-- Witness for claim C10 at a concrete password. -/
theorem password_key_pragma_verbatim_witness :
    initSql true false "pw" false =
      keyPragma "pw" ++ sconcat (cipherTail ++ tuningPragmas false false) ∧
    sq ≠ "" := by
  have h := password_key_pragma_verbatim "pw" (by decide)
  exact ⟨h.1 false false, h.2.1⟩

end Watermelon
